import Mathlib

/-!
Shallow embedding of `src/hindi_transcription.py` (KaranSantra/ASR-hindi-demo).

The script is a single-invocation command-line utility.  We model one run as a
pure function of an `Env` (the oracle answers of the outside world: whether the
input path is an existing regular file, whether CUDA is available, what the
third-party inference pipeline does, the wall-clock timestamp string, and
whether the final file write succeeds) that produces the ordered trace of
observable effects (`Event` list) together with the Python-level result
(normal return or raised exception), and an exit code at the `main` level.
-/

namespace HindiASR

/-- Python exception values relevant to the script: `FileNotFoundError` versus
every other exception type, each carrying its `str(e)` description. -/
inductive PyExc where
  | fileNotFound (msg : String)
  | generic (msg : String)
deriving DecidableEq, Repr

/-- The `str(e)` text of an exception. -/
def pyExcMsg : PyExc → String
  | PyExc.fileNotFound m => m
  | PyExc.generic m => m

/-- The result structure returned by the inference pipeline, modelled as a
string-valued dictionary (an association list of key/value pairs). -/
structure PipeResult where
  entries : List (String × String)
deriving DecidableEq, Repr

/-- Python dictionary subscript `result[k]`: the first binding of `k`, or a
raised `KeyError` (a generic, non-`FileNotFoundError` exception) whose
`str` is the quoted key. -/
def dictGet (r : PipeResult) (k : String) : Except PyExc String :=
  match r.entries.find? (fun e => e.fst == k) with
  | some e => Except.ok e.snd
  | none => Except.error (PyExc.generic ("\x27" ++ k ++ "\x27"))

/-- Observable effects of one run, in program order. -/
inductive Event where
  | checkIsFile (path : String)
  | print (line : String)
  | makedirs (dir : String) (existOk : Bool)
  | cudaProbe
  | initPipeline (task model : String) (chunkLengthS : Nat) (device : String)
  | invokePipeline (path : String)
  | getTimestamp
  | openForWrite (path : String)
  | writeFile (path : String) (content : String) (encoding : String)
deriving DecidableEq, Repr

/-- Oracle answers of the environment for one invocation. -/
structure Env where
  /-- Result of `os.path.isfile(audio_file_path)`. -/
  inputIsFile : Bool
  /-- Result of `torch.cuda.is_available()`. -/
  cudaAvailable : Bool
  /-- Outcome of constructing `pipeline(...)`: `some e` means it raises `e`. -/
  ctorOutcome : Option PyExc
  /-- Outcome of the call `pipe(audio_file_path)`. -/
  invokeOutcome : Except PyExc PipeResult
  /-- The string `datetime.datetime.now().strftime("%Y%m%d-%H%M%S")`. -/
  timestamp : String
  /-- Outcome of opening/writing the output file: `some e` means it raises. -/
  writeOutcome : Option PyExc

/-- Split a character list at every occurrence of `sep` (like
`str.split(sep)` in Python: always at least one piece). -/
def splitChar (sep : Char) : List Char → List (List Char)
  | [] => [[]]
  | c :: rest =>
    match splitChar sep rest with
    | [] => [[c]]
    | h :: t => if c = sep then [] :: h :: t else (c :: h) :: t

/-- Last element of a list, or a default when the list is empty. -/
def lastOr (d : List Char) : List (List Char) → List Char
  | [] => d
  | [x] => x
  | _ :: x :: xs => lastOr d (x :: xs)

/-- The final component of a POSIX path as in `pathlib.PurePosixPath(p).name`:
split on the separator, drop empty and single-dot components, take the last. -/
def pathNameChars (p : String) : List Char :=
  lastOr [] ((splitChar '/' p.data).filter (fun l => !(l.isEmpty) && !(l == ['.'])))

/-- Index of the last occurrence of the dot character in a name. -/
def lastDotIdx : List Char → Option Nat
  | [] => none
  | c :: rest =>
    match lastDotIdx rest with
    | some i => some (i + 1)
    | none => if c = '.' then some 0 else none

/-- Stem of a final path component, following `pathlib`: the suffix is cut
only when the last dot sits strictly inside the name (`0 < i < len - 1`). -/
def stemChars (name : List Char) : List Char :=
  match lastDotIdx name with
  | none => name
  | some i => if 0 < i ∧ i + 1 < name.length then name.take i else name

/-- The value of `Path(audio_file_path).stem` in the script. -/
def pyStem (p : String) : String :=
  String.mk (stemChars (pathNameChars p))

/-- Whether a string starts with the path separator. -/
def startsWithSlash (s : String) : Bool :=
  match s.data with
  | [] => false
  | c :: _ => c = '/'

/-- Whether a string ends with the path separator. -/
def endsWithSlash (s : String) : Bool :=
  match s.data.getLast? with
  | some c => c = '/'
  | none => false

/-- Two-argument `os.path.join` on POSIX: an absolute second argument wins;
otherwise concatenate, inserting a separator when one is missing. -/
def os_path_join (a b : String) : String :=
  if startsWithSlash b then b
  else if a = "" then b
  else if endsWithSlash a then a ++ b
  else a ++ "/" ++ b

/-- The message of the `FileNotFoundError` raised by the validation check. -/
def fileNotFoundMsg (p : String) : String :=
  "The file \x27" ++ p ++ "\x27 does not exist."

/-- Embedding of `process_hindi_audio` (lines 13-65 of the script): the
ordered effect trace of the call together with its Python result, the
returned output path or the exception it raises. -/
def process_hindi_audio (env : Env) (audio_file_path : String) :
    List Event × Except PyExc String :=
  let tr0 : List Event := [Event.checkIsFile audio_file_path]
  if env.inputIsFile = false then
    (tr0, Except.error (PyExc.fileNotFound (fileNotFoundMsg audio_file_path)))
  else
    let device := if env.cudaAvailable then "cuda" else "cpu"
    let tr1 := tr0 ++
      [Event.makedirs "transcribed" true,
       Event.print "Transcription folder \x27transcribed\x27 is ready.",
       Event.print "Loading model vasista22/whisper-hindi-large-v2...",
       Event.cudaProbe,
       Event.print ("Using device: " ++ device),
       Event.initPipeline "automatic-speech-recognition"
         "vasista22/whisper-hindi-large-v2" 30 device]
    match env.ctorOutcome with
    | some e => (tr1, Except.error e)
    | none =>
      let tr2 := tr1 ++
        [Event.print ("Transcribing " ++ audio_file_path ++ "..."),
         Event.invokePipeline audio_file_path]
      match env.invokeOutcome with
      | Except.error e => (tr2, Except.error e)
      | Except.ok result =>
        match dictGet result "text" with
        | Except.error e => (tr2, Except.error e)
        | Except.ok transcription =>
          let output_filename := pyStem audio_file_path ++ "-" ++ env.timestamp ++ ".txt"
          let output_path := os_path_join "transcribed" output_filename
          let tr3 := tr2 ++ [Event.getTimestamp, Event.openForWrite output_path]
          match env.writeOutcome with
          | some e => (tr3, Except.error e)
          | none =>
            (tr3 ++ [Event.writeFile output_path transcription "utf-8"],
             Except.ok output_path)

/-- The line printed by `main` for a caught exception: `FileNotFoundError`
takes the dedicated branch, every other exception the generic one. -/
def mainErrLine : PyExc → String
  | PyExc.fileNotFound m => "Error: " ++ m
  | PyExc.generic m => "An error occurred during transcription: " ++ m

/-- Usage text emitted by `argparse` when the positional argument is missing
or extra arguments are supplied, modelled from the documented behaviour of
`argparse.ArgumentParser` for a parser with the single positional
`audio_file` (the library prints a usage line and exits with status 2). -/
def usageMessage : String :=
  "usage: hindi_transcription.py [-h] audio_file"

/-- Outcome of one whole process invocation. -/
structure RunResult where
  trace : List Event
  exitCode : Nat
deriving DecidableEq, Repr

/-- Embedding of `main` (lines 68-84): parse the command line (modelled for
plain positional arguments, without optional flags such as `-h`), run
`process_hindi_audio` under the try/except, print, and exit. -/
def main (env : Env) (argv : List String) : RunResult :=
  match argv with
  | [audio_file] =>
    let r := process_hindi_audio env audio_file
    match r.2 with
    | Except.ok output_path =>
      { trace := r.1 ++ [Event.print ("✓ Transcription saved to: " ++ output_path)],
        exitCode := 0 }
    | Except.error e =>
      { trace := r.1 ++ [Event.print (mainErrLine e)], exitCode := 1 }
  | _ => { trace := [Event.print usageMessage], exitCode := 2 }

/-- Semantics of `os.makedirs(d, exist_ok=ok)` on a filesystem state given as
the list of existing directories: creating an existing directory raises
`FileExistsError` unless `exist_ok` is set. -/
def runMakedirs (fs : List String) (d : String) (ok : Bool) :
    Except PyExc (List String) :=
  if d ∈ fs then
    if ok then Except.ok fs
    else Except.error (PyExc.generic ("FileExistsError: " ++ d))
  else Except.ok (d :: fs)

/-- Boolean test that `pat` is an initial segment of `s`. -/
def leadMatch : List Char → List Char → Bool
  | _, [] => true
  | [], _ :: _ => false
  | a :: as, b :: bs => a == b && leadMatch as bs

/-- Boolean test that `pat` occurs contiguously somewhere in the list. -/
def occursIn (pat : List Char) : List Char → Bool
  | [] => pat.isEmpty
  | c :: rest => leadMatch (c :: rest) pat || occursIn pat rest

/-- The string `sub` occurs contiguously inside `s`. -/
def containsSubstr (s sub : String) : Prop :=
  occursIn sub.data s.data = true

/-- The selected compute device of a run. -/
def deviceOf (env : Env) : String :=
  if env.cudaAvailable then "cuda" else "cpu"

/-- Keep only the file-writing events of a trace. -/
def writeEvents (tr : List Event) : List Event :=
  tr.filter fun e =>
    match e with
    | Event.writeFile _ _ _ => true
    | _ => false

/-- Keep only the pipeline-construction events of a trace. -/
def initEvents (tr : List Event) : List Event :=
  tr.filter fun e =>
    match e with
    | Event.initPipeline _ _ _ _ => true
    | _ => false

/-- Keep only the pipeline-invocation events of a trace. -/
def invokeEvents (tr : List Event) : List Event :=
  tr.filter fun e =>
    match e with
    | Event.invokePipeline _ => true
    | _ => false

/-- Keep only the CUDA capability probes of a trace. -/
def probeEvents (tr : List Event) : List Event :=
  tr.filter fun e =>
    match e with
    | Event.cudaProbe => true
    | _ => false

/-- Keep only the directory-creation events of a trace. -/
def mkdirEvents (tr : List Event) : List Event :=
  tr.filter fun e =>
    match e with
    | Event.makedirs _ _ => true
    | _ => false

/-- Environment of a fully successful run: input exists, no CUDA, pipeline
returns a result whose text field is a Hindi sentence, write succeeds. -/
def envC1 : Env :=
  { inputIsFile := true, cudaAvailable := false, ctorOutcome := none,
    invokeOutcome := Except.ok { entries := [("text", "नमस्ते दुनिया")] },
    timestamp := "20240301-101530", writeOutcome := none }

/-- Environment in which the input path is not an existing regular file. -/
def envMissing : Env :=
  { inputIsFile := false, cudaAvailable := false, ctorOutcome := none,
    invokeOutcome := Except.ok { entries := [] },
    timestamp := "20240301-101530", writeOutcome := none }

/-- Environment in which constructing the pipeline raises a
`FileNotFoundError` (for example, a missing model weights file). -/
def envCtorFnf : Env :=
  { inputIsFile := true, cudaAvailable := true,
    ctorOutcome := some (PyExc.fileNotFound "Missing model weights file"),
    invokeOutcome := Except.ok { entries := [] },
    timestamp := "20240301-101530", writeOutcome := none }

/-- Environment in which constructing the pipeline raises a generic
exception. -/
def envCtorGeneric : Env :=
  { inputIsFile := true, cudaAvailable := true,
    ctorOutcome := some (PyExc.generic "CUDA out of memory"),
    invokeOutcome := Except.ok { entries := [] },
    timestamp := "20240301-101530", writeOutcome := none }

/-- Environment in which the pipeline invocation itself raises a
`FileNotFoundError` (for example, a missing decoder executable). -/
def envInvokeFnf : Env :=
  { inputIsFile := true, cudaAvailable := false, ctorOutcome := none,
    invokeOutcome := Except.error (PyExc.fileNotFound "ffmpeg executable not found"),
    timestamp := "20240301-101530", writeOutcome := none }

/-- Environment of a successful run whose transcription text is empty. -/
def envEmptyText : Env :=
  { inputIsFile := true, cudaAvailable := false, ctorOutcome := none,
    invokeOutcome := Except.ok { entries := [("text", "")] },
    timestamp := "20240301-101530", writeOutcome := none }

/-- Effect trace of a run up to and including pipeline construction. -/
def preTrace (p dev : String) : List Event :=
  [Event.checkIsFile p,
   Event.makedirs "transcribed" true,
   Event.print "Transcription folder \x27transcribed\x27 is ready.",
   Event.print "Loading model vasista22/whisper-hindi-large-v2...",
   Event.cudaProbe,
   Event.print ("Using device: " ++ dev),
   Event.initPipeline "automatic-speech-recognition"
     "vasista22/whisper-hindi-large-v2" 30 dev]

/-- Effect trace of a run up to and including pipeline invocation. -/
def invTrace (p dev : String) : List Event :=
  preTrace p dev ++
    [Event.print ("Transcribing " ++ p ++ "..."), Event.invokePipeline p]

/-- The output path the script computes: `os.path.join` of the directory and
`<stem>-<timestamp>.txt`. -/
def outPath (p ts : String) : String :=
  os_path_join "transcribed" (pyStem p ++ "-" ++ ts ++ ".txt")

/-- Effect trace of a run up to and including opening the output file. -/
def wrTrace (p dev ts : String) : List Event :=
  invTrace p dev ++ [Event.getTimestamp, Event.openForWrite (outPath p ts)]

instance {ε α : Type} [DecidableEq ε] [DecidableEq α] : DecidableEq (Except ε α) :=
  fun x y =>
    match x, y with
    | Except.ok a, Except.ok b =>
      if h : a = b then isTrue (by rw [h]) else isFalse (by intro hc; cases hc; exact h rfl)
    | Except.ok _, Except.error _ => isFalse (by intro hc; cases hc)
    | Except.error _, Except.ok _ => isFalse (by intro hc; cases hc)
    | Except.error a, Except.error b =>
      if h : a = b then isTrue (by rw [h]) else isFalse (by intro hc; cases hc; exact h rfl)

/-! Substring machinery: `occursIn` detects every explicit decomposition. -/

theorem leadMatch_self_append (pat b : List Char) : leadMatch (pat ++ b) pat = true := by
  induction pat with
  | nil => cases b <;> simp [leadMatch]
  | cons c cs ih => simp [leadMatch, ih]

theorem occursIn_self_append (pat b : List Char) : occursIn pat (pat ++ b) = true := by
  cases pat with
  | nil => cases b <;> simp [occursIn, leadMatch, List.isEmpty]
  | cons c cs =>
    simp only [occursIn, List.cons_append, Bool.or_eq_true]
    left
    exact leadMatch_self_append (c :: cs) b

theorem occursIn_append_left (pat b : List Char) (h : occursIn pat b = true)
    (a : List Char) : occursIn pat (a ++ b) = true := by
  induction a with
  | nil => simpa using h
  | cons c cs ih => simp [occursIn, ih]

theorem containsSubstr_of_decomp (s sub : String) (a b : List Char)
    (h : s.data = a ++ (sub.data ++ b)) : containsSubstr s sub := by
  unfold containsSubstr
  rw [h]
  exact occursIn_append_left _ _ (occursIn_self_append _ _) a

/-! Path components produced by `splitChar` never contain the separator, so a
stem never contains a slash and joined output paths have the expected shape. -/

theorem splitChar_ne_nil (sep : Char) (cs : List Char) : splitChar sep cs ≠ [] := by
  cases cs with
  | nil => simp [splitChar]
  | cons c rest =>
    simp only [splitChar]
    cases splitChar sep rest with
    | nil => simp
    | cons h t =>
      by_cases hc : c = sep <;> simp [hc]

theorem splitChar_mem_no_sep (sep : Char) (cs : List Char) :
    ∀ l ∈ splitChar sep cs, sep ∉ l := by
  induction cs with
  | nil =>
    intro l hl
    simp [splitChar] at hl
    simp [hl]
  | cons c rest ih =>
    intro l hl
    simp only [splitChar] at hl
    cases hs : splitChar sep rest with
    | nil => exact absurd hs (splitChar_ne_nil sep rest)
    | cons h t =>
      rw [hs] at hl
      by_cases hc : c = sep
      · simp [hc] at hl
        rcases hl with hl | hl | hl
        · simp [hl]
        · exact ih l (by rw [hs, hl]; exact List.mem_cons_self _ _)
        · exact ih l (by rw [hs]; exact List.mem_cons_of_mem _ hl)
      · simp [hc] at hl
        rcases hl with hl | hl
        · subst hl
          intro hmem
          rcases List.mem_cons.mp hmem with h1 | h1
          · exact hc h1.symm
          · exact ih h (by rw [hs]; exact List.mem_cons_self _ _) h1
        · exact ih l (by rw [hs]; exact List.mem_cons_of_mem _ hl)

theorem lastOr_cases (d : List Char) (L : List (List Char)) :
    lastOr d L ∈ L ∨ lastOr d L = d := by
  induction L with
  | nil => right; rfl
  | cons x xs ih =>
    cases xs with
    | nil => left; simp [lastOr]
    | cons y ys =>
      rcases ih with h | h
      · left
        rw [show lastOr d (x :: y :: ys) = lastOr d (y :: ys) from rfl]
        exact List.mem_cons_of_mem _ h
      · right
        rw [show lastOr d (x :: y :: ys) = lastOr d (y :: ys) from rfl]
        exact h

theorem pathNameChars_no_slash (p : String) : '/' ∉ pathNameChars p := by
  unfold pathNameChars
  rcases lastOr_cases []
      ((splitChar '/' p.data).filter (fun l => !(l.isEmpty) && !(l == ['.']))) with h | h
  · have := (List.mem_filter.mp h).1
    exact splitChar_mem_no_sep '/' p.data _ this
  · rw [h]
    simp

theorem stemChars_no_slash (name : List Char) (h : '/' ∉ name) :
    '/' ∉ stemChars name := by
  unfold stemChars
  cases lastDotIdx name with
  | none => exact h
  | some i =>
    by_cases hc : 0 < i ∧ i + 1 < name.length
    · simp only [hc, if_true]
      intro hmem
      exact h (List.take_subset i name hmem)
    · simp only [hc, if_false]
      exact h

theorem pyStem_no_slash (p : String) : '/' ∉ (pyStem p).data := by
  unfold pyStem
  exact stemChars_no_slash _ (pathNameChars_no_slash p)

theorem outPath_eq (p ts : String) :
    outPath p ts = "transcribed/" ++ (pyStem p ++ "-" ++ ts ++ ".txt") := by
  have hdata : (pyStem p ++ "-" ++ ts ++ ".txt").data =
      (pyStem p).data ++ (['-'] ++ ts.data ++ ['.', 't', 'x', 't']) := by
    simp [String.data_append]
  have hsw : startsWithSlash (pyStem p ++ "-" ++ ts ++ ".txt") = false := by
    unfold startsWithSlash
    rw [hdata]
    cases hstem : (pyStem p).data with
    | nil => simp
    | cons c cs =>
      have hc : c ≠ '/' := by
        intro hc
        exact pyStem_no_slash p (by rw [hstem, hc]; exact List.mem_cons_self _ _)
      simp [hc]
  unfold outPath os_path_join
  rw [hsw]
  simp only [Bool.false_eq_true, if_false]
  rw [if_neg (by decide : ¬ ("transcribed" : String) = "")]
  rw [if_neg (by simp [show endsWithSlash "transcribed" = false from by decide])]
  apply String.ext
  simp [String.data_append]

/-! Branch lemmas: the full effect trace and result of `process_hindi_audio`
in each of its six control-flow outcomes. -/

theorem process_notfound (env : Env) (p : String) (h : env.inputIsFile = false) :
    process_hindi_audio env p =
      ([Event.checkIsFile p],
       Except.error (PyExc.fileNotFound (fileNotFoundMsg p))) := by
  simp [process_hindi_audio, h]

theorem process_ctor_err (env : Env) (p : String) (e : PyExc)
    (h1 : env.inputIsFile = true) (h2 : env.ctorOutcome = some e) :
    process_hindi_audio env p = (preTrace p (deviceOf env), Except.error e) := by
  simp [process_hindi_audio, preTrace, deviceOf, h1, h2]

theorem process_invoke_err (env : Env) (p : String) (e : PyExc)
    (h1 : env.inputIsFile = true) (h2 : env.ctorOutcome = none)
    (h3 : env.invokeOutcome = Except.error e) :
    process_hindi_audio env p = (invTrace p (deviceOf env), Except.error e) := by
  simp [process_hindi_audio, preTrace, invTrace, deviceOf, h1, h2, h3]

theorem process_text_err (env : Env) (p : String) (r : PipeResult) (e : PyExc)
    (h1 : env.inputIsFile = true) (h2 : env.ctorOutcome = none)
    (h3 : env.invokeOutcome = Except.ok r)
    (h4 : dictGet r "text" = Except.error e) :
    process_hindi_audio env p = (invTrace p (deviceOf env), Except.error e) := by
  simp [process_hindi_audio, preTrace, invTrace, deviceOf, h1, h2, h3, h4]

theorem process_write_err (env : Env) (p : String) (r : PipeResult) (t : String)
    (e : PyExc)
    (h1 : env.inputIsFile = true) (h2 : env.ctorOutcome = none)
    (h3 : env.invokeOutcome = Except.ok r)
    (h4 : dictGet r "text" = Except.ok t)
    (h5 : env.writeOutcome = some e) :
    process_hindi_audio env p =
      (wrTrace p (deviceOf env) env.timestamp, Except.error e) := by
  simp [process_hindi_audio, preTrace, invTrace, wrTrace, outPath, deviceOf,
    h1, h2, h3, h4, h5]

theorem process_success (env : Env) (p : String) (r : PipeResult) (t : String)
    (h1 : env.inputIsFile = true) (h2 : env.ctorOutcome = none)
    (h3 : env.invokeOutcome = Except.ok r)
    (h4 : dictGet r "text" = Except.ok t)
    (h5 : env.writeOutcome = none) :
    process_hindi_audio env p =
      (wrTrace p (deviceOf env) env.timestamp ++
         [Event.writeFile (outPath p env.timestamp) t "utf-8"],
       Except.ok (outPath p env.timestamp)) := by
  simp [process_hindi_audio, preTrace, invTrace, wrTrace, outPath, deviceOf,
    h1, h2, h3, h4, h5]

theorem main_ok (env : Env) (p out : String)
    (h : (process_hindi_audio env p).2 = Except.ok out) :
    main env [p] =
      { trace := (process_hindi_audio env p).1 ++
          [Event.print ("✓ Transcription saved to: " ++ out)],
        exitCode := 0 } := by
  simp [main, h]

theorem main_err (env : Env) (p : String) (e : PyExc)
    (h : (process_hindi_audio env p).2 = Except.error e) :
    main env [p] =
      { trace := (process_hindi_audio env p).1 ++ [Event.print (mainErrLine e)],
        exitCode := 1 } := by
  simp [main, h]

theorem process_trace_cases_post_ctor (env : Env) (p : String)
    (h1 : env.inputIsFile = true) (h2 : env.ctorOutcome = none) :
    (process_hindi_audio env p).1 = invTrace p (deviceOf env) ∨
    (process_hindi_audio env p).1 = wrTrace p (deviceOf env) env.timestamp ∨
    ∃ t, (process_hindi_audio env p).1 =
      wrTrace p (deviceOf env) env.timestamp ++
        [Event.writeFile (outPath p env.timestamp) t "utf-8"] := by
  cases h3 : env.invokeOutcome with
  | error e => exact Or.inl (by rw [process_invoke_err env p e h1 h2 h3])
  | ok r =>
    cases h4 : dictGet r "text" with
    | error e => exact Or.inl (by rw [process_text_err env p r e h1 h2 h3 h4])
    | ok t =>
      cases h5 : env.writeOutcome with
      | some e =>
        exact Or.inr (Or.inl (by rw [process_write_err env p r t e h1 h2 h3 h4 h5]))
      | none =>
        exact Or.inr (Or.inr ⟨t, by rw [process_success env p r t h1 h2 h3 h4 h5]⟩)

theorem process_trace_cases (env : Env) (p : String) (h1 : env.inputIsFile = true) :
    (process_hindi_audio env p).1 = preTrace p (deviceOf env) ∨
    (process_hindi_audio env p).1 = invTrace p (deviceOf env) ∨
    (process_hindi_audio env p).1 = wrTrace p (deviceOf env) env.timestamp ∨
    ∃ t, (process_hindi_audio env p).1 =
      wrTrace p (deviceOf env) env.timestamp ++
        [Event.writeFile (outPath p env.timestamp) t "utf-8"] := by
  cases h2 : env.ctorOutcome with
  | some e => exact Or.inl (by rw [process_ctor_err env p e h1 h2])
  | none => exact Or.inr (process_trace_cases_post_ctor env p h1 h2)

theorem process_error_trace (env : Env) (p : String) (e : PyExc)
    (h1 : env.inputIsFile = true)
    (h : (process_hindi_audio env p).2 = Except.error e) :
    (process_hindi_audio env p).1 = preTrace p (deviceOf env) ∨
    (process_hindi_audio env p).1 = invTrace p (deviceOf env) ∨
    (process_hindi_audio env p).1 = wrTrace p (deviceOf env) env.timestamp := by
  cases h2 : env.ctorOutcome with
  | some e2 => exact Or.inl (by rw [process_ctor_err env p e2 h1 h2])
  | none =>
    cases h3 : env.invokeOutcome with
    | error e2 => exact Or.inr (Or.inl (by rw [process_invoke_err env p e2 h1 h2 h3]))
    | ok r =>
      cases h4 : dictGet r "text" with
      | error e2 => exact Or.inr (Or.inl (by rw [process_text_err env p r e2 h1 h2 h3 h4]))
      | ok t =>
        cases h5 : env.writeOutcome with
        | some e2 =>
          exact Or.inr (Or.inr (by rw [process_write_err env p r t e2 h1 h2 h3 h4 h5]))
        | none =>
          rw [process_success env p r t h1 h2 h3 h4 h5] at h
          cases h

theorem main_trace_split (env : Env) (p : String) :
    ∃ line, (main env [p]).trace =
      (process_hindi_audio env p).1 ++ [Event.print line] := by
  cases hres : (process_hindi_audio env p).2 with
  | error e => exact ⟨mainErrLine e, by rw [main_err env p e hres]⟩
  | ok out =>
    exact ⟨"✓ Transcription saved to: " ++ out, by rw [main_ok env p out hres]⟩

/-! The claims. -/

/-- C1: for every run in which the input file exists and the pipeline returns
a result whose text field is `t` at wall-clock timestamp string `s`, the
program writes exactly one file, at `transcribed/<stem>-<s>.txt`, whose
content is exactly `t`, encoded UTF-8; `process_hindi_audio` returns that
path; a confirmation line containing that path is printed; and the process
exits with code 0. -/
theorem C1_success_run (env : Env) (p t s : String) (r : PipeResult)
    (h1 : env.inputIsFile = true) (h2 : env.ctorOutcome = none)
    (h3 : env.invokeOutcome = Except.ok r) (h4 : dictGet r "text" = Except.ok t)
    (h5 : env.writeOutcome = none) (h6 : env.timestamp = s) :
    (process_hindi_audio env p).2 =
        Except.ok ("transcribed/" ++ (pyStem p ++ "-" ++ s ++ ".txt")) ∧
    (main env [p]).exitCode = 0 ∧
    writeEvents (main env [p]).trace =
        [Event.writeFile ("transcribed/" ++ (pyStem p ++ "-" ++ s ++ ".txt"))
          t "utf-8"] ∧
    ∃ msg, Event.print msg ∈ (main env [p]).trace ∧
      containsSubstr msg ("transcribed/" ++ (pyStem p ++ "-" ++ s ++ ".txt")) := by
  subst h6
  have hp := process_success env p r t h1 h2 h3 h4 h5
  have hres : (process_hindi_audio env p).2 = Except.ok (outPath p env.timestamp) := by
    rw [hp]
  have hm := main_ok env p _ hres
  refine ⟨by rw [hres, outPath_eq], by rw [hm], ?_, ?_⟩
  · rw [hm]
    have htr : (process_hindi_audio env p).1 =
        wrTrace p (deviceOf env) env.timestamp ++
          [Event.writeFile (outPath p env.timestamp) t "utf-8"] := by rw [hp]
    rw [htr, outPath_eq]
    rfl
  · refine ⟨"✓ Transcription saved to: " ++ outPath p env.timestamp, ?_, ?_⟩
    · rw [hm]
      simp
    · apply containsSubstr_of_decomp _ _ ("✓ Transcription saved to: ").data []
      rw [outPath_eq]
      simp [String.data_append]

/-- Witness for C1 at the spec scenario: `speech.wav` exists, the pipeline
returns the Hindi sentence at timestamp `20240301-101530`. -/
theorem C1_success_run_witness :
    (process_hindi_audio envC1 "speech.wav").2 =
        Except.ok ("transcribed/" ++
          (pyStem "speech.wav" ++ "-" ++ "20240301-101530" ++ ".txt")) ∧
    (main envC1 ["speech.wav"]).exitCode = 0 ∧
    writeEvents (main envC1 ["speech.wav"]).trace =
        [Event.writeFile ("transcribed/" ++
            (pyStem "speech.wav" ++ "-" ++ "20240301-101530" ++ ".txt"))
          "नमस्ते दुनिया" "utf-8"] ∧
    ∃ msg, Event.print msg ∈ (main envC1 ["speech.wav"]).trace ∧
      containsSubstr msg ("transcribed/" ++
        (pyStem "speech.wav" ++ "-" ++ "20240301-101530" ++ ".txt")) :=
  C1_success_run envC1 "speech.wav" "नमस्ते दुनिया" "20240301-101530"
    { entries := [("text", "नमस्ते दुनिया")] } rfl rfl rfl (by decide) rfl rfl

/-- C2: for every path that is not an existing regular file, the run exits
with code 1, the whole trace is the validation query followed by one printed
message that contains the exact path and the words "does not exist", and no
directory creation, device probe, pipeline construction, or pipeline
invocation occurs. -/
theorem C2_missing_input (env : Env) (p : String) (h : env.inputIsFile = false) :
    (main env [p]).exitCode = 1 ∧
    (main env [p]).trace =
      [Event.checkIsFile p, Event.print ("Error: " ++ fileNotFoundMsg p)] ∧
    (∃ msg, Event.print msg ∈ (main env [p]).trace ∧
      containsSubstr msg p ∧ containsSubstr msg "does not exist") ∧
    (∀ d ok, Event.makedirs d ok ∉ (main env [p]).trace) ∧
    Event.cudaProbe ∉ (main env [p]).trace ∧
    (∀ ta mo ch de, Event.initPipeline ta mo ch de ∉ (main env [p]).trace) ∧
    (∀ q, Event.invokePipeline q ∉ (main env [p]).trace) := by
  have hp := process_notfound env p h
  have hm := main_err env p _ (by rw [hp])
  have htr : (main env [p]).trace =
      [Event.checkIsFile p, Event.print ("Error: " ++ fileNotFoundMsg p)] := by
    rw [hm]
    have : (process_hindi_audio env p).1 = [Event.checkIsFile p] := by rw [hp]
    rw [this]
    rfl
  refine ⟨by rw [hm], htr, ?_, ?_, ?_, ?_, ?_⟩
  · refine ⟨"Error: " ++ fileNotFoundMsg p, by rw [htr]; simp, ?_, ?_⟩
    · apply containsSubstr_of_decomp _ _ (("Error: ").data ++ ("The file \x27").data)
        (("\x27 does not exist.").data)
      simp [fileNotFoundMsg, String.data_append]
    · apply containsSubstr_of_decomp _ _
        (("Error: ").data ++ ("The file \x27").data ++ p.data ++ ("\x27 ").data)
        ((".").data)
      have hdec : ("\x27 does not exist.").data =
          ("\x27 ").data ++ (("does not exist").data ++ (".").data) := by decide
      simp [fileNotFoundMsg, String.data_append, hdec]
  · intro d ok
    rw [htr]
    simp
  · rw [htr]
    simp
  · intro ta mo ch de
    rw [htr]
    simp
  · intro q
    rw [htr]
    simp

/-- Witness for C2 at the spec scenario `missing.wav`. -/
theorem C2_missing_input_witness :
    (main envMissing ["missing.wav"]).exitCode = 1 ∧
    (main envMissing ["missing.wav"]).trace =
      [Event.checkIsFile "missing.wav",
       Event.print ("Error: " ++ fileNotFoundMsg "missing.wav")] ∧
    (∃ msg, Event.print msg ∈ (main envMissing ["missing.wav"]).trace ∧
      containsSubstr msg "missing.wav" ∧ containsSubstr msg "does not exist") ∧
    (∀ d ok, Event.makedirs d ok ∉ (main envMissing ["missing.wav"]).trace) ∧
    Event.cudaProbe ∉ (main envMissing ["missing.wav"]).trace ∧
    (∀ ta mo ch de,
      Event.initPipeline ta mo ch de ∉ (main envMissing ["missing.wav"]).trace) ∧
    (∀ q, Event.invokePipeline q ∉ (main envMissing ["missing.wav"]).trace) :=
  C2_missing_input envMissing "missing.wav" rfl

/-- C8: when the pipeline returns an empty transcription text, the program
still writes the output file with empty content, prints the confirmation
line, and exits with code 0; empty text is not an error. -/
theorem C8_empty_transcription (env : Env) (p : String) (r : PipeResult)
    (h1 : env.inputIsFile = true) (h2 : env.ctorOutcome = none)
    (h3 : env.invokeOutcome = Except.ok r)
    (h4 : dictGet r "text" = Except.ok "")
    (h5 : env.writeOutcome = none) :
    (main env [p]).exitCode = 0 ∧
    writeEvents (main env [p]).trace =
      [Event.writeFile (outPath p env.timestamp) "" "utf-8"] ∧
    ∃ msg, Event.print msg ∈ (main env [p]).trace ∧
      containsSubstr msg "Transcription saved to" := by
  have hp := process_success env p r "" h1 h2 h3 h4 h5
  have hres : (process_hindi_audio env p).2 = Except.ok (outPath p env.timestamp) := by
    rw [hp]
  have hm := main_ok env p _ hres
  refine ⟨by rw [hm], ?_, ?_⟩
  · rw [hm]
    have htr : (process_hindi_audio env p).1 =
        wrTrace p (deviceOf env) env.timestamp ++
          [Event.writeFile (outPath p env.timestamp) "" "utf-8"] := by rw [hp]
    rw [htr]
    rfl
  · refine ⟨"✓ Transcription saved to: " ++ outPath p env.timestamp, ?_, ?_⟩
    · rw [hm]
      simp
    · apply containsSubstr_of_decomp _ _ ("✓ ").data ((": ").data ++ (outPath p env.timestamp).data)
      have hdec : ("✓ Transcription saved to: ").data =
          ("✓ ").data ++ (("Transcription saved to").data ++ (": ").data) := by decide
      simp [String.data_append, hdec]

/-- Witness for C8: pipeline returns `{"text": ""}` for silent audio. -/
theorem C8_empty_transcription_witness :
    (main envEmptyText ["silent.wav"]).exitCode = 0 ∧
    writeEvents (main envEmptyText ["silent.wav"]).trace =
      [Event.writeFile (outPath "silent.wav" envEmptyText.timestamp) "" "utf-8"] ∧
    ∃ msg, Event.print msg ∈ (main envEmptyText ["silent.wav"]).trace ∧
      containsSubstr msg "Transcription saved to" :=
  C8_empty_transcription envEmptyText "silent.wav"
    { entries := [("text", "")] } rfl rfl rfl (by decide) rfl

/-- C3 counterexample: a model-load failure that raises `FileNotFoundError`
(here a missing weights file while constructing the pipeline, after the input
file passed validation) exits with code 1 but is reported with the specific
`Error:` message; no printed line of the run contains the generic
`An error occurred` description, refuting the claim that every failure other
than the input-file check prints the generic message. -/
theorem C3_counterexample :
    envCtorFnf.inputIsFile = true ∧
    (process_hindi_audio envCtorFnf "speech.wav").2 =
      Except.error (PyExc.fileNotFound "Missing model weights file") ∧
    (main envCtorFnf ["speech.wav"]).exitCode = 1 ∧
    Event.print ("Error: Missing model weights file")
      ∈ (main envCtorFnf ["speech.wav"]).trace ∧
    ((main envCtorFnf ["speech.wav"]).trace.all fun ev =>
      match ev with
      | Event.print m => !(occursIn ("An error occurred").data m.data)
      | _ => true) = true := by
  decide

/-- C3 amended: for every failure other than the input-file-not-found check,
the run exits with code 1, appends exactly one error line to the trace, that
line contains the underlying failure description, and no file is written
into `transcribed/`; the line uses the generic format for every exception
that is not a `FileNotFoundError`, while a `FileNotFoundError` raised later
in processing uses the specific `Error:` format. -/
theorem C3_generic_failure_amended (env : Env) (p : String) (e : PyExc)
    (h1 : env.inputIsFile = true)
    (h : (process_hindi_audio env p).2 = Except.error e) :
    (main env [p]).exitCode = 1 ∧
    (main env [p]).trace =
      (process_hindi_audio env p).1 ++ [Event.print (mainErrLine e)] ∧
    containsSubstr (mainErrLine e) (pyExcMsg e) ∧
    writeEvents (main env [p]).trace = [] ∧
    (∀ m, e = PyExc.generic m →
      mainErrLine e = "An error occurred during transcription: " ++ m) := by
  have hm := main_err env p e h
  refine ⟨by rw [hm], by rw [hm], ?_, ?_, ?_⟩
  · cases e with
    | fileNotFound m =>
      apply containsSubstr_of_decomp _ _ ("Error: ").data []
      simp [mainErrLine, pyExcMsg, String.data_append]
    | generic m =>
      apply containsSubstr_of_decomp _ _ ("An error occurred during transcription: ").data []
      simp [mainErrLine, pyExcMsg, String.data_append]
  · rw [hm]
    rcases process_error_trace env p e h1 h with htr | htr | htr <;>
      rw [htr] <;> rfl
  · intro m hme
    subst hme
    rfl

/-- Witness for the amended C3: a generic pipeline-construction failure is
reported with the generic line, exits 1, and writes nothing. -/
theorem C3_generic_failure_amended_witness :
    (main envCtorGeneric ["speech.wav"]).exitCode = 1 ∧
    (main envCtorGeneric ["speech.wav"]).trace =
      (process_hindi_audio envCtorGeneric "speech.wav").1 ++
        [Event.print (mainErrLine (PyExc.generic "CUDA out of memory"))] ∧
    containsSubstr (mainErrLine (PyExc.generic "CUDA out of memory"))
      (pyExcMsg (PyExc.generic "CUDA out of memory")) ∧
    writeEvents (main envCtorGeneric ["speech.wav"]).trace = [] ∧
    (∀ m, PyExc.generic "CUDA out of memory" = PyExc.generic m →
      mainErrLine (PyExc.generic "CUDA out of memory") =
        "An error occurred during transcription: " ++ m) :=
  C3_generic_failure_amended envCtorGeneric "speech.wav"
    (PyExc.generic "CUDA out of memory") rfl (by decide)

/-- C4 counterexample: in a successful run the `transcribed/` directory is
created at position 1 of the trace, strictly before the pipeline invocation
at position 8 (and this is the only directory-creation event), so the
directory is created before — not only after — the Transcription Runner has
produced the transcription text. -/
theorem C4_counterexample :
    (main envC1 ["speech.wav"]).trace[1]? =
      some (Event.makedirs "transcribed" true) ∧
    (main envC1 ["speech.wav"]).trace[8]? =
      some (Event.invokePipeline "speech.wav") ∧
    mkdirEvents (main envC1 ["speech.wav"]).trace =
      [Event.makedirs "transcribed" true] ∧
    (1 : Nat) < 8 := by
  decide

/-- C4 amended: execution order is strictly linear, but the `transcribed/`
directory is created immediately after validation succeeds and before device
selection, pipeline construction, and transcription; after the transcription
text is produced the timestamp is taken, the filename computed, and the file
written, followed by the confirmation print. -/
theorem C4_order_amended (env : Env) (p t : String) (r : PipeResult)
    (h1 : env.inputIsFile = true) (h2 : env.ctorOutcome = none)
    (h3 : env.invokeOutcome = Except.ok r)
    (h4 : dictGet r "text" = Except.ok t)
    (h5 : env.writeOutcome = none) :
    (main env [p]).trace =
      [Event.checkIsFile p,
       Event.makedirs "transcribed" true,
       Event.print "Transcription folder \x27transcribed\x27 is ready.",
       Event.print "Loading model vasista22/whisper-hindi-large-v2...",
       Event.cudaProbe,
       Event.print ("Using device: " ++ deviceOf env),
       Event.initPipeline "automatic-speech-recognition"
         "vasista22/whisper-hindi-large-v2" 30 (deviceOf env),
       Event.print ("Transcribing " ++ p ++ "..."),
       Event.invokePipeline p,
       Event.getTimestamp,
       Event.openForWrite (outPath p env.timestamp),
       Event.writeFile (outPath p env.timestamp) t "utf-8",
       Event.print ("✓ Transcription saved to: " ++ outPath p env.timestamp)] := by
  have hp := process_success env p r t h1 h2 h3 h4 h5
  have hres : (process_hindi_audio env p).2 = Except.ok (outPath p env.timestamp) := by
    rw [hp]
  rw [main_ok env p _ hres]
  have htr : (process_hindi_audio env p).1 =
      wrTrace p (deviceOf env) env.timestamp ++
        [Event.writeFile (outPath p env.timestamp) t "utf-8"] := by rw [hp]
  rw [htr]
  rfl

/-- Witness for the amended C4 at the success environment. -/
theorem C4_order_amended_witness :
    (main envC1 ["speech.wav"]).trace =
      [Event.checkIsFile "speech.wav",
       Event.makedirs "transcribed" true,
       Event.print "Transcription folder \x27transcribed\x27 is ready.",
       Event.print "Loading model vasista22/whisper-hindi-large-v2...",
       Event.cudaProbe,
       Event.print ("Using device: " ++ deviceOf envC1),
       Event.initPipeline "automatic-speech-recognition"
         "vasista22/whisper-hindi-large-v2" 30 (deviceOf envC1),
       Event.print ("Transcribing " ++ "speech.wav" ++ "..."),
       Event.invokePipeline "speech.wav",
       Event.getTimestamp,
       Event.openForWrite (outPath "speech.wav" envC1.timestamp),
       Event.writeFile (outPath "speech.wav" envC1.timestamp) "नमस्ते दुनिया" "utf-8",
       Event.print ("✓ Transcription saved to: " ++ outPath "speech.wav" envC1.timestamp)] :=
  C4_order_amended envC1 "speech.wav" "नमस्ते दुनिया"
    { entries := [("text", "नमस्ते दुनिया")] } rfl rfl rfl (by decide) rfl

/-- C9: the two error tiers are distinguished by exception type, not origin:
whenever `process_hindi_audio` raises, the run exits with code 1 and appends
exactly one error line; a `FileNotFoundError` — wherever it was raised —
yields the specific `Error:` line, and every other exception yields the
generic line. -/
theorem C9_exception_type_dispatch (env : Env) (p : String) (e : PyExc)
    (h : (process_hindi_audio env p).2 = Except.error e) :
    (main env [p]).exitCode = 1 ∧
    (main env [p]).trace =
      (process_hindi_audio env p).1 ++ [Event.print (mainErrLine e)] ∧
    (∀ m, e = PyExc.fileNotFound m → mainErrLine e = "Error: " ++ m) ∧
    (∀ m, e = PyExc.generic m →
      mainErrLine e = "An error occurred during transcription: " ++ m) := by
  have hm := main_err env p e h
  refine ⟨by rw [hm], by rw [hm], ?_, ?_⟩
  · intro m hme
    subst hme
    rfl
  · intro m hme
    subst hme
    rfl

/-- Witness for C9: a `FileNotFoundError` raised by the pipeline invocation
itself, after the input file passed validation, still takes the specific
`Error:` branch. -/
theorem C9_exception_type_dispatch_witness :
    (main envInvokeFnf ["speech.wav"]).exitCode = 1 ∧
    (main envInvokeFnf ["speech.wav"]).trace =
      (process_hindi_audio envInvokeFnf "speech.wav").1 ++
        [Event.print (mainErrLine (PyExc.fileNotFound "ffmpeg executable not found"))] ∧
    (∀ m, PyExc.fileNotFound "ffmpeg executable not found" = PyExc.fileNotFound m →
      mainErrLine (PyExc.fileNotFound "ffmpeg executable not found") = "Error: " ++ m) ∧
    (∀ m, PyExc.fileNotFound "ffmpeg executable not found" = PyExc.generic m →
      mainErrLine (PyExc.fileNotFound "ffmpeg executable not found") =
        "An error occurred during transcription: " ++ m) :=
  C9_exception_type_dispatch envInvokeFnf "speech.wav"
    (PyExc.fileNotFound "ffmpeg executable not found") (by decide)

/-- C10: when the command line does not supply exactly one positional
argument, argument parsing prints the usage message and terminates with exit
code 2 — outside the documented 0/1 contract — and `process_hindi_audio` is
never entered (no validation query and no pipeline invocation occur). -/
theorem C10_usage_exit_two (env : Env) (argv : List String)
    (h : argv.length ≠ 1) :
    (main env argv).exitCode = 2 ∧
    (main env argv).trace = [Event.print usageMessage] ∧
    containsSubstr usageMessage "usage:" ∧
    (∀ q, Event.checkIsFile q ∉ (main env argv).trace) ∧
    (∀ q, Event.invokePipeline q ∉ (main env argv).trace) := by
  cases argv with
  | nil =>
    refine ⟨rfl, rfl, by unfold containsSubstr; decide, ?_, ?_⟩ <;> intro q <;> simp [main, usageMessage]
  | cons a rest =>
    cases rest with
    | nil => exact absurd rfl h
    | cons b rest2 =>
      refine ⟨rfl, rfl, by unfold containsSubstr; decide, ?_, ?_⟩ <;> intro q <;> simp [main, usageMessage]

/-- Witness for C10: an empty argument list. -/
theorem C10_usage_exit_two_witness :
    (main envC1 ([] : List String)).exitCode = 2 ∧
    (main envC1 ([] : List String)).trace = [Event.print usageMessage] ∧
    containsSubstr usageMessage "usage:" ∧
    (∀ q, Event.checkIsFile q ∉ (main envC1 ([] : List String)).trace) ∧
    (∀ q, Event.invokePipeline q ∉ (main envC1 ([] : List String)).trace) :=
  C10_usage_exit_two envC1 [] (by decide)

/-- C5: in every run that reaches transcription, the pipeline is constructed
exactly once — for the automatic-speech-recognition task, bound to the fixed
model identifier `vasista22/whisper-hindi-large-v2`, with a 30-second chunk
length and the selected device — and is invoked exactly once, on the audio
path. -/
theorem C5_pipeline_config (env : Env) (p : String)
    (h1 : env.inputIsFile = true) (h2 : env.ctorOutcome = none) :
    initEvents (main env [p]).trace =
      [Event.initPipeline "automatic-speech-recognition"
         "vasista22/whisper-hindi-large-v2" 30 (deviceOf env)] ∧
    invokeEvents (main env [p]).trace = [Event.invokePipeline p] ∧
    deviceOf env = (if env.cudaAvailable then "cuda" else "cpu") := by
  obtain ⟨line, hsplit⟩ := main_trace_split env p
  rcases process_trace_cases_post_ctor env p h1 h2 with htr | htr | ⟨t, htr⟩ <;>
    rw [hsplit, htr] <;>
    exact ⟨rfl, rfl, rfl⟩

/-- Witness for C5 at the success environment. -/
theorem C5_pipeline_config_witness :
    initEvents (main envC1 ["speech.wav"]).trace =
      [Event.initPipeline "automatic-speech-recognition"
         "vasista22/whisper-hindi-large-v2" 30 (deviceOf envC1)] ∧
    invokeEvents (main envC1 ["speech.wav"]).trace =
      [Event.invokePipeline "speech.wav"] ∧
    deviceOf envC1 = (if envC1.cudaAvailable then "cuda" else "cpu") :=
  C5_pipeline_config envC1 "speech.wav" rfl rfl

/-- C6: in every run that reaches device selection, the CUDA capability is
probed exactly once, the chosen device is `cuda` when available and `cpu`
otherwise, and the choice is announced on the printed device line. -/
theorem C6_device_selection (env : Env) (p : String)
    (h1 : env.inputIsFile = true) :
    probeEvents (main env [p]).trace = [Event.cudaProbe] ∧
    Event.print ("Using device: " ++ deviceOf env) ∈ (main env [p]).trace ∧
    deviceOf env = (if env.cudaAvailable then "cuda" else "cpu") := by
  obtain ⟨line, hsplit⟩ := main_trace_split env p
  rcases process_trace_cases env p h1 with htr | htr | htr | ⟨t, htr⟩ <;>
    rw [hsplit, htr] <;>
    refine ⟨rfl, ?_, rfl⟩ <;>
    simp [preTrace, invTrace, wrTrace]

/-- Witness for C6 at the success environment. -/
theorem C6_device_selection_witness :
    probeEvents (main envC1 ["speech.wav"]).trace = [Event.cudaProbe] ∧
    Event.print ("Using device: " ++ deviceOf envC1)
      ∈ (main envC1 ["speech.wav"]).trace ∧
    deviceOf envC1 = (if envC1.cudaAvailable then "cuda" else "cpu") :=
  C6_device_selection envC1 "speech.wav" rfl

/-- C7: the script only ever creates the directory `transcribed` with the
`exist_ok` flag set, and that operation is idempotent and never fails: from
any filesystem state it succeeds, and repeating it from the resulting state
succeeds again without changing the state, so a second invocation of the
script never fails because the directory already exists. -/
theorem C7_makedirs_idempotent (fs : List String) (env : Env) (p d : String)
    (ok : Bool) (h : Event.makedirs d ok ∈ (main env [p]).trace) :
    (d = "transcribed" ∧ ok = true) ∧
    ∃ fs2, runMakedirs fs d ok = Except.ok fs2 ∧
      runMakedirs fs2 d ok = Except.ok fs2 := by
  have hdo : d = "transcribed" ∧ ok = true := by
    obtain ⟨line, hsplit⟩ := main_trace_split env p
    rw [hsplit] at h
    cases h1 : env.inputIsFile with
    | false =>
      have hnf : (process_hindi_audio env p).1 = [Event.checkIsFile p] := by
        rw [process_notfound env p h1]
      rw [hnf] at h
      simp at h
    | true =>
      rcases process_trace_cases env p h1 with htr | htr | htr | ⟨t, htr⟩ <;>
        rw [htr] at h <;>
        simp [preTrace, invTrace, wrTrace] at h <;>
        exact h
  obtain ⟨hd, hok⟩ := hdo
  subst hd
  subst hok
  refine ⟨⟨rfl, rfl⟩, ?_⟩
  by_cases hmem : "transcribed" ∈ fs
  · exact ⟨fs, by simp [runMakedirs, hmem], by simp [runMakedirs, hmem]⟩
  · refine ⟨"transcribed" :: fs, by simp [runMakedirs, hmem], ?_⟩
    simp [runMakedirs]

/-- Witness for C7: the directory-creation event of a successful run, applied
to the empty filesystem. -/
theorem C7_makedirs_idempotent_witness :
    (("transcribed" : String) = "transcribed" ∧ true = true) ∧
    ∃ fs2, runMakedirs [] "transcribed" true = Except.ok fs2 ∧
      runMakedirs fs2 "transcribed" true = Except.ok fs2 :=
  C7_makedirs_idempotent [] envC1 "speech.wav" "transcribed" true (by decide)

end HindiASR
